import Mathlib

/-!
Verification of `src/browser_action.js`, the browser-action popup script of
the google-calendar-crx repository.  The script is event-driven DOM glue:
it reads the badge text, sends message requests to a background script, and
renders calendar events into a tabbed popup.  We embed its state (the DOM
facets the script touches), its outgoing effects (message sends, badge-text
reads, tab creation), and each of its functions, and prove the spec claims
about them.
-/

namespace browseraction

/-- A parsed moment in time, as produced by the date/time utility.
`day` counts civil days from the epoch 1970-01-01; the clock fields are the
local time-of-day parts that `hours()` / `minutes()` / `seconds()` expose. -/
structure Moment where
  day : Int
  hours : Nat
  minutes : Nat
  seconds : Nat
  ms : Nat
  deriving Repr, DecidableEq

/-- Total milliseconds represented by a moment, used for `diff` arithmetic. -/
def Moment.totalMs (m : Moment) : Int :=
  m.day * 86400000 + (m.hours : Int) * 3600000 + (m.minutes : Int) * 60000
    + (m.seconds : Int) * 1000 + (m.ms : Int)

/-- `a.diff(b, 'hours')`: the difference in whole hours, truncated toward
zero, as moment.js computes it. -/
def Moment.diffHours (a b : Moment) : Int :=
  Int.tdiv (a.totalMs - b.totalMs) 3600000

/-- `m.clone().hours(0).minutes(0).seconds(0)` from the source: zero the
clock fields down to seconds (milliseconds are left untouched, exactly as
the chain of setters in the source leaves them). -/
def Moment.zeroClock (m : Moment) : Moment :=
  { m with hours := 0, minutes := 0, seconds := 0 }

/-- Value of a decimal digit character. -/
def digitVal (c : Char) : Option Nat :=
  if c.isDigit then some (c.toNat - 48) else none

/-- Combine two digit characters into a two-digit number. -/
def twoDigits (c1 c2 : Char) : Option Nat := do
  let d1 ← digitVal c1
  let d2 ← digitVal c2
  pure (d1 * 10 + d2)

/-- Combine four digit characters into a four-digit number. -/
def fourDigits (c1 c2 c3 c4 : Char) : Option Nat := do
  let hi ← twoDigits c1 c2
  let lo ← twoDigits c3 c4
  pure (hi * 100 + lo)

/-- Civil days from 1970-01-01 for a Gregorian date (Hinnant's algorithm;
division truncates toward zero, which the leading shift keeps correct). -/
def daysFromCivil (y m d : Int) : Int :=
  let y := if m ≤ 2 then y - 1 else y
  let era := Int.tdiv (if 0 ≤ y then y else y - 399) 400
  let yoe := y - era * 400
  let mp := (m + 9) % 12
  let doy := Int.tdiv (153 * mp + 2) 5 + d - 1
  let doe := yoe * 365 + Int.tdiv yoe 4 - Int.tdiv yoe 100 + doy
  era * 146097 + doe - 719468

/-- Build a moment from parsed date and time fields, rejecting fields that
no calendar date or clock time has. -/
def mkMoment (y mo d h mi s : Nat) : Option Moment :=
  if 1 ≤ mo ∧ mo ≤ 12 ∧ 1 ≤ d ∧ d ≤ 31 ∧ h < 24 ∧ mi < 60 ∧ s < 60 then
    some { day := daysFromCivil (y : Int) (mo : Int) (d : Int),
           hours := h, minutes := mi, seconds := s, ms := 0 }
  else none

/-- Parse the character list of an ISO-8601 string, in the two shapes the
feed uses: a plain date `YYYY-MM-DD` or a date-time `YYYY-MM-DDThh:mm:ss`. -/
def fromIso8601Chars : List Char → Option Moment
  | [y1, y2, y3, y4, '-', m1, m2, '-', d1, d2] => do
    let y ← fourDigits y1 y2 y3 y4
    let mo ← twoDigits m1 m2
    let d ← twoDigits d1 d2
    mkMoment y mo d 0 0 0
  | [y1, y2, y3, y4, '-', m1, m2, '-', d1, d2, 'T',
     h1, h2, ':', mi1, mi2, ':', s1, s2] => do
    let y ← fourDigits y1 y2 y3 y4
    let mo ← twoDigits m1 m2
    let d ← twoDigits d1 d2
    let h ← twoDigits h1 h2
    let mi ← twoDigits mi1 mi2
    let s ← twoDigits s1 s2
    mkMoment y mo d h mi s
  | _ => none

end browseraction

namespace utils

/-- Modelled from the spec: `utils.fromIso8601`, the date/time utility's
ISO-8601 parser, whose source file is not under src/.  It turns an event's
start or end string into a moment, and yields nothing (a falsy value in the
source) when the field is missing or does not parse. -/
def fromIso8601 (s : Option String) : Option browseraction.Moment :=
  s.bind fun str => browseraction.fromIso8601Chars str.data

end utils

namespace browseraction

/-- The URL of the browser UI for Google Calendar
(`browseraction.CALENDAR_UI_URL_`). -/
def CALENDAR_UI_URL_ : String := "https://www.google.com/calendar/"

/-- Rendered text: either a literal string or the result of formatting a
moment with a moment.js pattern (`m.format(pattern)` is kept symbolic). -/
inductive Text where
  | lit (s : String)
  | fmt (m : Moment) (pattern : String)
  deriving Repr, DecidableEq

/-- A DOM element as `fillMessages_` sees it: its id, tag name, classes,
`data-href` attribute, and the `href` / `title` attributes and text content
the function may write. -/
structure Elem where
  id : String
  tagName : String
  classes : List String
  dataHref : Option String
  href : Option String
  titleAttr : Option String
  text : String
  deriving Repr, DecidableEq

/-- An event coming back from the `events.feed.get` / `events.feed.fetch`
responses: start and end strings (possibly absent), the link URL, the feed
color and title, the event title, and the location string. -/
structure FeedEvent where
  start : Option String
  «end» : Option String
  url : String
  title : String
  feedColor : String
  feedTitle : String
  location : Option String
  deriving Repr, DecidableEq

/-- An event detected on the page, as returned by `events.detected.get`:
only the fields `createEventButton_` reads. -/
structure PageEvent where
  gcal_url : String
  title : String
  deriving Repr, DecidableEq

/-- The `div.event` node that `showEventsFromFeed_` appends to `#agenda`:
its `data-url` attribute, the `div.feed-color` decorations, the `h1` title,
the optional `div.start-and-end-times` block (start span text, end span
text), and the optional `div.location`. -/
structure EventDivModel where
  dataUrl : String
  feedColor : String
  feedTitle : String
  title : String
  startEndTimes : Option (Text × Text)
  location : Option String
  deriving Repr, DecidableEq

/-- A child appended to `#agenda`: a `div.date-header` or a `div.event`. -/
inductive AgendaItem where
  | dateHeader (text : Text)
  | eventDiv (d : EventDivModel)
  deriving Repr, DecidableEq

/-- The `a.single-event` anchor built by `createEventButton_`. -/
structure EventButton where
  href : String
  titleAttr : String
  target : String
  htmlContent : String
  deriving Repr, DecidableEq

/-- The facets of the popup DOM this script reads or writes. -/
structure PopupState where
  /-- The document's elements, as scanned by `fillMessages_`. -/
  docElems : List Elem
  /-- Whether `.tab-container` is shown. -/
  tabContainerVisible : Bool
  /-- Whether `#error` is shown. -/
  errorVisible : Bool
  /-- Whether `#add-events` carries the class `selected`. -/
  addEventsSelected : Bool
  /-- Whether `#view_agenda` carries the class `selected`. -/
  viewAgendaSelected : Bool
  /-- Whether the `#events` pane (class `tab`) is shown. -/
  eventsVisible : Bool
  /-- Whether the `#agenda` pane (class `tab`) is shown. -/
  agendaVisible : Bool
  /-- The `#events_list` containers appended to `#events`, each holding its
  `a.single-event` children in order. -/
  eventsListContainers : List (List EventButton)
  /-- The children of `#agenda`, in order. -/
  agenda : List AgendaItem
  deriving Repr, DecidableEq

/-- An outgoing effect of the popup script: a `chrome.extension.sendMessage`
call (keyed by its `method` field), a `chrome.browserAction.getBadgeText`
read, or a `chrome.tabs.create` call. -/
inductive Effect where
  | sendMessage (method : String)
  | getBadgeText
  | createTab (url : String)
  deriving Repr, DecidableEq

/-- Whether an effect asks the background script for data
(a `chrome.extension.sendMessage` call). -/
def Effect.isSendMessage : Effect → Bool
  | .sendMessage _ => true
  | _ => false

/-- The `method` strings of the `sendMessage` effects in a trace. -/
def sentMethods (fx : List Effect) : List String :=
  fx.filterMap fun e => match e with
    | .sendMessage m => some m
    | _ => none

/-- The i18n pass of `fillMessages_` on one element: if the element has
class `i18n`, look up the message keyed by the element's id and set it as
the `title` attribute for an `IMG` tag, or as the text content otherwise. -/
def i18nStep (getMessage : String → String) (e : Elem) : Elem :=
  if e.classes.contains "i18n" then
    let i18nText := getMessage e.id
    if e.tagName = "IMG" then { e with titleAttr := some i18nText }
    else { e with text := i18nText }
  else e

/-- The second pass of `fillMessages_` on one element: every element with
`data-href="calendar_ui_url"` gets its `href` set to the calendar UI URL. -/
def hrefStep (e : Elem) : Elem :=
  if e.dataHref = some "calendar_ui_url" then
    { e with href := some CALENDAR_UI_URL_ }
  else e

/-- `browseraction.fillMessages_`: run the i18n pass over every element,
then the `data-href` pass over every element. -/
def fillMessages_ (getMessage : String → String) (st : PopupState) : PopupState :=
  { st with docElems := (st.docElems.map (i18nStep getMessage)).map hrefStep }

/-- The click handler installed on `#add-events`: drop `selected`
everywhere, hide every `.tab` pane, then select `#add-events` and show
`#events`. -/
def addEventsClick (st : PopupState) : PopupState :=
  let st := { st with addEventsSelected := false, viewAgendaSelected := false,
                      eventsVisible := false, agendaVisible := false }
  { st with addEventsSelected := true, eventsVisible := true }

/-- The click handler installed on `#view_agenda`: drop `selected`
everywhere, hide every `.tab` pane, then select `#view_agenda` and show
`#agenda`. -/
def viewAgendaClick (st : PopupState) : PopupState :=
  let st := { st with addEventsSelected := false, viewAgendaSelected := false,
                      eventsVisible := false, agendaVisible := false }
  { st with viewAgendaSelected := true, agendaVisible := true }

/-- `browseraction.installTabStripClickHandlers_`: install the two click
handlers and immediately invoke the `#view_agenda` one (the trailing
`.click()` in the source). -/
def installTabStripClickHandlers_ (st : PopupState) : PopupState :=
  viewAgendaClick st

/-- The handler `installButtonClickHandlers_` attaches to `#sync_now`:
its effect trace is a single `events.feed.fetch` message send (whose
response is handled by `showEventsFromFeed_`; see `syncNowHandler`). -/
def syncNowClickEffects : List Effect :=
  [Effect.sendMessage "events.feed.fetch"]

/-- `browseraction.showLoginMessageIfNotAuthenticated_`, after the badge
text arrives: on text `?` (not authorized) hide `.tab-container`, show
`#error`, and re-request the feed with an `events.feed.fetch` message;
otherwise show `.tab-container` and hide `#error`.  Returns the updated
state with the effects of the callback. -/
def badgeTextCallback (text : String) (st : PopupState) :
    PopupState × List Effect :=
  if text = "?" then
    ({ st with tabContainerVisible := false, errorVisible := true },
     [Effect.sendMessage "events.feed.fetch"])
  else
    ({ st with tabContainerVisible := true, errorVisible := false }, [])

/-- `browseraction.createEventButton_`: an `a.single-event` anchor linking
to the event's `gcal_url`, titled with the localized add-to-calendar
message, targeting a new tab, and labelled either with that same localized
message (when `opt_useDefaultAnchorText` is true) or with the event's
title. -/
def createEventButton_ (getMessage : String → String) (event : PageEvent)
    (opt_useDefaultAnchorText : Bool) : EventButton :=
  { href := event.gcal_url,
    titleAttr := getMessage "add_to_google_calendar",
    target := "_blank",
    htmlContent :=
      if opt_useDefaultAnchorText then getMessage "add_to_google_calendar"
      else event.title }

/-- `browseraction.showDetectedEvents_`, after the `events.detected.get`
response arrives (the response may be missing): with a non-empty list,
append an `#events_list` container to `#events`, fill it with one
`createEventButton_(event, false)` anchor per event, and click
`#add-events`; otherwise do nothing. -/
def showDetectedEventsCallback (getMessage : String → String)
    (eventsFromPage : Option (List PageEvent)) (st : PopupState) : PopupState :=
  match eventsFromPage with
  | none => st
  | some evs =>
    if evs.length > 0 then
      let st := { st with eventsListContainers := st.eventsListContainers ++
        [evs.map fun event => createEventButton_ getMessage event false] }
      addEventsClick st
    else st

/-- The all-day test of `showEventsFromFeed_`:
`!end || (start.hours() === 0 && start.minutes() === 0 && end.hours() === 0
&& end.minutes() === 0)`. -/
def eventAllDay (start : Moment) (endM : Option Moment) : Bool :=
  match endM with
  | none => true
  | some e => start.hours == 0 && start.minutes == 0 &&
              e.hours == 0 && e.minutes == 0

/-- The date-header decision of `showEventsFromFeed_`: a new header is
emitted when `lastDateHeader` is unset or when the event's zeroed start
date is more than 23 whole hours past it; the pair returns the decision
and the (possibly updated) `lastDateHeader`. -/
def headerUpdate (startDate : Moment) (lastDateHeader : Option Moment) :
    Bool × Moment :=
  match lastDateHeader with
  | none => (true, startDate)
  | some prev =>
    if startDate.diffHours prev > 23 then (true, startDate)
    else (false, prev)

/-- The `div.event` node built by the loop body of `showEventsFromFeed_`
for one event: `data-url` from `event.url`, the feed color and title, the
`h1` title, the `start-and-end-times` block (omitted for all-day events),
and the `location` div (omitted when `event.location` is falsy). -/
def eventDivOf (ev : FeedEvent) (start : Moment) (endM : Option Moment) :
    EventDivModel :=
  { dataUrl := ev.url,
    feedColor := ev.feedColor,
    feedTitle := ev.feedTitle,
    title := ev.title,
    startEndTimes :=
      if eventAllDay start endM then none
      else
        match endM with
        | some e => some (.fmt start "h:mma", .fmt e "h:mma")
        | none => none,
    location :=
      match ev.location with
      | none => none
      | some l => if l = "" then none else some l }

/-- One iteration of the loop in `showEventsFromFeed_`, producing the
children it appends to `#agenda` and the updated `lastDateHeader`.  The
source declares `lastDateHeader` with `var`, so the variable is hoisted to
function scope and the bare redeclaration inside the loop does not reset
it: its value survives from one iteration to the next.  Calling a method
on a failed parse of `event.start` would throw, so that case yields
`none`. -/
def renderEventStep (ev : FeedEvent) (lastDateHeader : Option Moment) :
    Option (List AgendaItem × Moment) :=
  match utils.fromIso8601 ev.start with
  | none => none
  | some start =>
    let endM := utils.fromIso8601 ev.«end»
    let (newHeader, ldh) := headerUpdate start.zeroClock lastDateHeader
    let headers : List AgendaItem :=
      if newHeader then [.dateHeader (.fmt ldh "dddd MMMM, D")] else []
    some (headers ++ [.eventDiv (eventDivOf ev start endM)], ldh)

/-- The loop of `showEventsFromFeed_`, threading the popup state and the
function-scoped `lastDateHeader` through the events. -/
def showEventsFromFeedGo :
    List FeedEvent → PopupState → Option Moment → Option PopupState
  | [], st, _ => some st
  | ev :: rest, st, ldh =>
    match renderEventStep ev ldh with
    | none => none
    | some (items, ldh1) =>
      showEventsFromFeedGo rest { st with agenda := st.agenda ++ items }
        (some ldh1)

/-- `browseraction.showEventsFromFeed_`: render the feed events into
`#agenda`; `lastDateHeader` starts out undefined. -/
def showEventsFromFeed_ (events : List FeedEvent) (st : PopupState) :
    Option PopupState :=
  showEventsFromFeedGo events st none

/-- The handler registered for the `#sync_now` response, for the
`events.feed.get` response in `initialize`, and for the re-fetch response
of the badge callback: all three are `showEventsFromFeed_` itself. -/
def syncNowHandler : List FeedEvent → PopupState → Option PopupState :=
  showEventsFromFeed_

/-- The click handler attached to each rendered `div.event`: open a new
browser tab at the div's `data-url` attribute. -/
def eventDivClick (d : EventDivModel) : Effect :=
  Effect.createTab d.dataUrl

/-- `browseraction.initialize` (named `initPopup` here), run to completion
with the given badge text and background responses: the synchronous body
runs `fillMessages_`, `installTabStripClickHandlers_`,
`installButtonClickHandlers_` (which only registers the `#sync_now`
handler), issues the badge-text read, the `events.detected.get` send and
the `events.feed.get` send, and then the three callbacks fire.  Returns
the final state (none when `showEventsFromFeed_` throws) together with
the full effect trace. -/
def initPopup (getMessage : String → String) (badge : String)
    (detectedResp : Option (List PageEvent)) (feedResp : List FeedEvent)
    (st : PopupState) : Option PopupState × List Effect :=
  let st1 := fillMessages_ getMessage st
  let st2 := installTabStripClickHandlers_ st1
  let (st3, loginFx) := badgeTextCallback badge st2
  let st4 := showDetectedEventsCallback getMessage detectedResp st3
  let stFinal := showEventsFromFeed_ feedResp st4
  (stFinal,
   [Effect.getBadgeText,
    Effect.sendMessage "events.detected.get",
    Effect.sendMessage "events.feed.get"] ++ loginFx)

end browseraction

namespace browseraction

/-- The tab-strip invariant: exactly one of the two tabs carries the
`selected` class, and each pane is shown exactly when its tab is
selected. -/
def tabInvariant (st : PopupState) : Prop :=
  st.addEventsSelected = !st.viewAgendaSelected ∧
  st.eventsVisible = st.addEventsSelected ∧
  st.agendaVisible = st.viewAgendaSelected

/-- Number of `div.date-header` children in a list of agenda items. -/
def countDateHeaders (items : List AgendaItem) : Nat :=
  items.countP fun i => match i with
    | .dateHeader _ => true
    | _ => false

/-- The `div.event` children of a list of agenda items, in order. -/
def eventDivs (items : List AgendaItem) : List EventDivModel :=
  items.filterMap fun i => match i with
    | .eventDiv d => some d
    | _ => none

/-- The agenda items produced by the `showEventsFromFeed_` loop for a list
of events, starting from a given `lastDateHeader` (pure characterization
of the loop, proved equal to it in `showEventsFromFeedGo_eq`). -/
def renderFeedItems : List FeedEvent → Option Moment → Option (List AgendaItem)
  | [], _ => some []
  | ev :: rest, ldh =>
    match renderEventStep ev ldh with
    | none => none
    | some (items, ldh1) => (renderFeedItems rest (some ldh1)).map (items ++ ·)

/-- The three message methods the popup ever sends to the background
script. -/
def popupMethods : List String :=
  ["events.feed.get", "events.feed.fetch", "events.detected.get"]

/-- An effect acquires event data only through a message to the background
script with one of the popup's three methods. -/
def effectFetchesOnlyVia (e : Effect) : Prop :=
  ∀ m, e = Effect.sendMessage m → m ∈ popupMethods

/-- A concrete i18n message table for witnesses. -/
def demoGetMessage : String → String := fun k => String.append "msg:" k

/-- A concrete empty popup state for witnesses. -/
def emptyState : PopupState :=
  { docElems := [], tabContainerVisible := false, errorVisible := false,
    addEventsSelected := false, viewAgendaSelected := false,
    eventsVisible := false, agendaVisible := false,
    eventsListContainers := [], agenda := [] }

/-- A concrete feed event on 2023-05-01, 9:00 to 10:00. -/
def demoEvent1 : FeedEvent :=
  { start := some "2023-05-01T09:00:00", «end» := some "2023-05-01T10:00:00",
    url := "https://calendar.example/1", title := "Standup",
    feedColor := "#ff0000", feedTitle := "Work", location := some "Room 1" }

/-- A concrete feed event later on the same day, 13:00 to 14:30. -/
def demoEvent2 : FeedEvent :=
  { start := some "2023-05-01T13:00:00", «end» := some "2023-05-01T14:30:00",
    url := "https://calendar.example/2", title := "Review",
    feedColor := "#ff0000", feedTitle := "Work", location := none }

/-- Two feed events that fall on the same day. -/
def demoFeedSameDay : List FeedEvent := [demoEvent1, demoEvent2]

/-- A concrete detected page event. -/
def demoPageEvent : PageEvent :=
  { gcal_url := "https://www.google.com/calendar/event?x=1", title := "Party" }

end browseraction

namespace browseraction

/-- The moment parsed from `demoEvent1.start` (2023-05-01 09:00). -/
def demoStart1 : Moment :=
  { day := 19478, hours := 9, minutes := 0, seconds := 0, ms := 0 }

/-- The agenda items rendered for `demoEvent1` as first event. -/
def demoItems1 : List AgendaItem :=
  ((renderEventStep demoEvent1 none).getD ([], demoStart1)).1

/-- A concrete all-day feed event (a bare date, no end). -/
def demoEvent3 : FeedEvent :=
  { start := some "2023-05-02", «end» := none,
    url := "https://calendar.example/3", title := "Holiday",
    feedColor := "#0000ff", feedTitle := "Home", location := none }

/-- The moment parsed from `demoEvent3.start` (2023-05-02, midnight). -/
def demoStart3 : Moment :=
  { day := 19479, hours := 0, minutes := 0, seconds := 0, ms := 0 }

/-- The agenda items rendered for `demoEvent3` as first event. -/
def demoItems3 : List AgendaItem :=
  ((renderEventStep demoEvent3 none).getD ([], demoStart3)).1

/-- The `div.event` rendered for `demoEvent3`. -/
def demoDiv3 : EventDivModel := eventDivOf demoEvent3 demoStart3 none

/-- The popup state after a run of `initPopup` on `emptyState` with badge
text `""`, no detected events and an empty feed. -/
def demoInitState : PopupState :=
  { docElems := [], tabContainerVisible := true, errorVisible := false,
    addEventsSelected := false, viewAgendaSelected := true,
    eventsVisible := false, agendaVisible := true,
    eventsListContainers := [], agenda := [] }

/-- A concrete `IMG` element carrying the `i18n` class. -/
def demoImgElem : Elem :=
  { id := "settings", tagName := "IMG", classes := ["i18n"],
    dataHref := none, href := none, titleAttr := none, text := "" }

end browseraction

namespace browseraction

theorem showEventsFromFeedGo_eq (events : List FeedEvent) :
    ∀ (st : PopupState) (ldh : Option Moment),
      showEventsFromFeedGo events st ldh =
        (renderFeedItems events ldh).map
          (fun items => { st with agenda := st.agenda ++ items }) := by
  induction events with
  | nil => intro st ldh; simp [showEventsFromFeedGo, renderFeedItems]
  | cons ev rest ih =>
    intro st ldh
    simp only [showEventsFromFeedGo, renderFeedItems]
    cases h : renderEventStep ev ldh with
    | none => simp
    | some out =>
      obtain ⟨items, ldh1⟩ := out
      dsimp only
      rw [ih]
      cases renderFeedItems rest (some ldh1) <;> simp [List.append_assoc]

/-- C1, counterexample: when the badge text is `?`, a full initialization
run sends three messages to the background script, not two. -/
theorem C1_counterexample :
    ((initPopup demoGetMessage "?" none [] emptyState).2.countP
        Effect.isSendMessage) = 3 ∧
    ¬ ((initPopup demoGetMessage "?" none [] emptyState).2.countP
        Effect.isSendMessage) = 2 := by
  constructor <;> decide

/-- C1 (amended): a full initialization run sends exactly the messages
`events.detected.get` and `events.feed.get` when the badge text is not
`?`; when the badge text is `?` the badge-text callback sends one more
message, `events.feed.fetch`, for a total of three. -/
theorem C1_initialization_sends (gm : String → String) (badge : String)
    (detectedResp : Option (List PageEvent)) (feedResp : List FeedEvent)
    (st : PopupState) :
    sentMethods (initPopup gm badge detectedResp feedResp st).2 =
      if badge = "?"
      then ["events.detected.get", "events.feed.get", "events.feed.fetch"]
      else ["events.detected.get", "events.feed.get"] := by
  by_cases h : badge = "?" <;>
    simp [initPopup, badgeTextCallback, sentMethods, h]

/-- C2: when the badge text is exactly `?`, the badge callback hides the
tab container, shows the error element, and sends `events.feed.fetch`;
for every other badge text it shows the tab container, hides the error
element, and sends nothing. -/
theorem C2_login_branch (text : String) (st : PopupState) :
    (text = "?" →
      (badgeTextCallback text st).1.tabContainerVisible = false ∧
      (badgeTextCallback text st).1.errorVisible = true ∧
      (badgeTextCallback text st).2 =
        [Effect.sendMessage "events.feed.fetch"]) ∧
    (text ≠ "?" →
      (badgeTextCallback text st).1.tabContainerVisible = true ∧
      (badgeTextCallback text st).1.errorVisible = false ∧
      (badgeTextCallback text st).2 = []) := by
  constructor <;> intro h <;> simp [badgeTextCallback, h]

theorem C2_login_branch_witness :
    (badgeTextCallback "?" emptyState).1.errorVisible = true ∧
    (badgeTextCallback "" emptyState).2 = [] :=
  ⟨((C2_login_branch "?" emptyState).1 rfl).2.1,
   ((C2_login_branch "" emptyState).2 (by decide)).2.2⟩

end browseraction

namespace browseraction

/-- C3, counterexample: two feed events on the same day produce a single
date header, not one header per event — `var lastDateHeader` is hoisted
to function scope, so the tracker is not reset between iterations. -/
theorem C3_counterexample :
    (showEventsFromFeed_ demoFeedSameDay emptyState).map
        (fun st => countDateHeaders st.agenda) = some 1 ∧
    demoFeedSameDay.length = 2 := by
  constructor <;> rfl

/-- C3 (amended): the loop body of `showEventsFromFeed_` appends a date
header before the first event, and before a later event exactly when the
event's zeroed start date is more than 23 whole hours past the previous
header; otherwise the surviving tracker is kept and no header is added. -/
theorem C3_header_per_date (ev : FeedEvent) (start : Moment)
    (h : utils.fromIso8601 ev.start = some start) :
    (∀ items m, renderEventStep ev none = some (items, m) →
      countDateHeaders items = 1 ∧ m = start.zeroClock) ∧
    (∀ prev items m, renderEventStep ev (some prev) = some (items, m) →
      countDateHeaders items =
        (if start.zeroClock.diffHours prev > 23 then 1 else 0) ∧
      m = (if start.zeroClock.diffHours prev > 23 then start.zeroClock
           else prev)) := by
  constructor
  · intro items m hstep
    simp only [renderEventStep, h, headerUpdate] at hstep
    cases hstep
    simp [countDateHeaders]
  · intro prev items m hstep
    simp only [renderEventStep, h, headerUpdate] at hstep
    by_cases hd : start.zeroClock.diffHours prev > 23 <;>
      simp only [hd, if_true, if_false] at hstep ⊢ <;>
      cases hstep <;>
      simp [countDateHeaders]

end browseraction

namespace browseraction

theorem C3_header_per_date_witness :
    countDateHeaders demoItems1 = 1 :=
  ((C3_header_per_date demoEvent1 demoStart1 (by decide)).1 demoItems1
    demoStart1.zeroClock (by decide)).1

theorem addEventsClick_invariant (st : PopupState) :
    tabInvariant (addEventsClick st) := by
  simp [tabInvariant, addEventsClick]

theorem viewAgendaClick_invariant (st : PopupState) :
    tabInvariant (viewAgendaClick st) := by
  simp [tabInvariant, viewAgendaClick]

theorem badgeTextCallback_tabs (text : String) (st : PopupState) :
    tabInvariant st → tabInvariant (badgeTextCallback text st).1 := by
  intro h
  by_cases hq : text = "?" <;>
    simpa [badgeTextCallback, hq, tabInvariant] using h

theorem showDetectedEventsCallback_invariant (gm : String → String)
    (resp : Option (List PageEvent)) (st : PopupState) :
    tabInvariant st → tabInvariant (showDetectedEventsCallback gm resp st) := by
  intro h
  cases resp with
  | none => simpa [showDetectedEventsCallback] using h
  | some evs =>
    by_cases hlen : evs.length > 0 <;>
      simp only [showDetectedEventsCallback, hlen, if_true, if_false]
    · exact addEventsClick_invariant _
    · exact h

theorem showEventsFromFeed_tabs (events : List FeedEvent)
    (st st' : PopupState) :
    showEventsFromFeed_ events st = some st' →
    tabInvariant st → tabInvariant st' := by
  intro hrun h
  rw [showEventsFromFeed_, showEventsFromFeedGo_eq] at hrun
  cases hitems : renderFeedItems events none with
  | none => rw [hitems] at hrun; cases hrun
  | some items =>
    rw [hitems] at hrun
    cases hrun
    simpa [tabInvariant] using h

/-- C4: the two tab-strip click handlers each leave exactly one tab
selected with only its pane shown; `installTabStripClickHandlers_` invokes
the `#view_agenda` handler at install time, so the agenda tab is the
selected one right after it runs; and a completed initialization run also
satisfies the invariant. -/
theorem C4_exactly_one_tab (st : PopupState) (gm : String → String)
    (badge : String) (detectedResp : Option (List PageEvent))
    (feedResp : List FeedEvent) (st' : PopupState) :
    tabInvariant (addEventsClick st) ∧
    tabInvariant (viewAgendaClick st) ∧
    (installTabStripClickHandlers_ st).viewAgendaSelected = true ∧
    (installTabStripClickHandlers_ st).addEventsSelected = false ∧
    tabInvariant (installTabStripClickHandlers_ st) ∧
    ((initPopup gm badge detectedResp feedResp st).1 = some st' →
      tabInvariant st') := by
  refine ⟨addEventsClick_invariant st, viewAgendaClick_invariant st,
    rfl, rfl, viewAgendaClick_invariant _, fun hrun => ?_⟩
  simp only [initPopup] at hrun
  exact showEventsFromFeed_tabs _ _ _ hrun
    (showDetectedEventsCallback_invariant _ _ _
      (badgeTextCallback_tabs _ _
        (viewAgendaClick_invariant (fillMessages_ gm st))))

theorem C4_exactly_one_tab_witness : tabInvariant demoInitState :=
  (C4_exactly_one_tab emptyState demoGetMessage "" none [] demoInitState).2.2.2.2.2
    (by decide)

end browseraction

namespace browseraction

theorem renderEventStep_some (ev : FeedEvent) (ldh : Option Moment)
    (items : List AgendaItem) (m : Moment)
    (hstep : renderEventStep ev ldh = some (items, m)) :
    ∃ start, utils.fromIso8601 ev.start = some start ∧
      items = (if (headerUpdate start.zeroClock ldh).1
               then [AgendaItem.dateHeader
                 (Text.fmt (headerUpdate start.zeroClock ldh).2 "dddd MMMM, D")]
               else []) ++
        [AgendaItem.eventDiv
          (eventDivOf ev start (utils.fromIso8601 ev.«end»))] ∧
      m = (headerUpdate start.zeroClock ldh).2 := by
  cases hs : utils.fromIso8601 ev.start with
  | none => simp [renderEventStep, hs] at hstep
  | some start =>
    refine ⟨start, rfl, ?_⟩
    rcases hu : headerUpdate start.zeroClock ldh with ⟨nh, l⟩
    simp only [renderEventStep, hs, hu] at hstep
    cases hstep
    simp

end browseraction

namespace browseraction

/-- C5: clicking `#sync_now` sends exactly one `events.feed.fetch`
message and its response handler is `showEventsFromFeed_`; clicking any
rendered agenda event div creates a browser tab at the div's `data-url`
attribute, which is the rendered event's `url` field. -/
theorem C5_sync_and_event_clicks (ev : FeedEvent) (ldh : Option Moment)
    (items : List AgendaItem) (m : Moment) (d : EventDivModel) :
    syncNowClickEffects = [Effect.sendMessage "events.feed.fetch"] ∧
    syncNowHandler = showEventsFromFeed_ ∧
    eventDivClick d = Effect.createTab d.dataUrl ∧
    (renderEventStep ev ldh = some (items, m) →
      ∀ dd ∈ eventDivs items, eventDivClick dd = Effect.createTab ev.url) := by
  refine ⟨rfl, rfl, rfl, fun hstep dd hdd => ?_⟩
  obtain ⟨start, hs, hitems, hm⟩ := renderEventStep_some ev ldh items m hstep
  subst hitems
  cases hif : (headerUpdate start.zeroClock ldh).1 <;>
    simp [eventDivs, hif] at hdd <;>
    subst hdd <;>
    rfl

theorem C5_sync_and_event_clicks_witness :
    eventDivClick demoDiv3 = Effect.createTab demoEvent3.url :=
  (C5_sync_and_event_clicks demoEvent3 none demoItems3 demoStart3
    demoDiv3).2.2.2 (by decide) demoDiv3 (by decide)

/-- C6: `fillMessages_` maps both passes over every document element; an
element with class `i18n` gets the localized message keyed by its id as
its `title` attribute when its tag is `IMG` and as its text content
otherwise, other elements are untouched; and every element with
`data-href="calendar_ui_url"` gets its `href` set to
`https://www.google.com/calendar/`. -/
theorem C6_fill_messages (gm : String → String) (st : PopupState) (e : Elem) :
    (fillMessages_ gm st).docElems =
      st.docElems.map (fun x => hrefStep (i18nStep gm x)) ∧
    (e.classes.contains "i18n" = true →
      (e.tagName = "IMG" →
        i18nStep gm e = { e with titleAttr := some (gm e.id) }) ∧
      (e.tagName ≠ "IMG" → i18nStep gm e = { e with text := gm e.id })) ∧
    (e.classes.contains "i18n" = false → i18nStep gm e = e) ∧
    (e.dataHref = some "calendar_ui_url" →
      hrefStep e = { e with href := some "https://www.google.com/calendar/" }) ∧
    (e.dataHref ≠ some "calendar_ui_url" → hrefStep e = e) := by
  refine ⟨by simp [fillMessages_], ?_, ?_, ?_, ?_⟩
  · intro hcl
    have hmem : "i18n" ∈ e.classes := by simpa using hcl
    constructor <;> intro htag <;> simp [i18nStep, hmem, htag]
  · intro hcl
    have hmem : "i18n" ∉ e.classes := by simpa using hcl
    simp [i18nStep, hmem]
  · intro hd; simp [hrefStep, hd, CALENDAR_UI_URL_]
  · intro hd; simp [hrefStep, hd]

theorem C6_fill_messages_witness :
    i18nStep demoGetMessage demoImgElem =
      { demoImgElem with titleAttr := some (demoGetMessage "settings") } :=
  ((C6_fill_messages demoGetMessage emptyState demoImgElem).2.1 rfl).1 rfl

end browseraction

namespace browseraction

/-- C7: the loop body of `showEventsFromFeed_` parses the event's start
and end strings through the ISO-8601 utility; every date header it emits
is formatted with the pattern `dddd MMMM, D`, and for a non-all-day event
the start and end times in the times block are each formatted with
`h:mma` from the parsed moments. -/
theorem C7_format_patterns (ev : FeedEvent) (ldh : Option Moment)
    (items : List AgendaItem) (m : Moment)
    (hstep : renderEventStep ev ldh = some (items, m)) :
    ∃ start, utils.fromIso8601 ev.start = some start ∧
      (∀ t, AgendaItem.dateHeader t ∈ items →
        ∃ hm, t = Text.fmt hm "dddd MMMM, D") ∧
      (∀ d, AgendaItem.eventDiv d ∈ items →
        d.startEndTimes = none ∨
        ∃ e, utils.fromIso8601 ev.«end» = some e ∧
          d.startEndTimes =
            some (Text.fmt start "h:mma", Text.fmt e "h:mma")) := by
  obtain ⟨start, hs, hitems, hm⟩ := renderEventStep_some ev ldh items m hstep
  subst hitems
  refine ⟨start, hs, ?_, ?_⟩
  · intro t ht
    cases hif : (headerUpdate start.zeroClock ldh).1 <;>
      simp [hif] at ht
    exact ⟨_, ht⟩
  · intro d hd
    cases hif : (headerUpdate start.zeroClock ldh).1 <;>
      simp [hif] at hd <;> subst hd <;>
    · cases he : utils.fromIso8601 ev.«end» with
      | none => left; simp [eventDivOf, eventAllDay, he]
      | some e =>
        cases hall : eventAllDay start (some e) with
        | true => left; simp [eventDivOf, he, hall]
        | false => right; exact ⟨e, rfl, by simp [eventDivOf, he, hall]⟩

theorem C7_format_patterns_witness :
    ∃ start, utils.fromIso8601 demoEvent1.start = some start ∧
      (∀ t, AgendaItem.dateHeader t ∈ demoItems1 →
        ∃ hm, t = Text.fmt hm "dddd MMMM, D") ∧
      (∀ d, AgendaItem.eventDiv d ∈ demoItems1 →
        d.startEndTimes = none ∨
        ∃ e, utils.fromIso8601 demoEvent1.«end» = some e ∧
          d.startEndTimes =
            some (Text.fmt start "h:mma", Text.fmt e "h:mma")) :=
  C7_format_patterns demoEvent1 none demoItems1 demoStart1.zeroClock
    (by decide)

end browseraction

namespace browseraction

theorem mem_sentMethods (fx : List Effect) (e : Effect) (mth : String)
    (he : e ∈ fx) (heq : e = Effect.sendMessage mth) :
    mth ∈ sentMethods fx := by
  subst heq
  exact List.mem_filterMap.mpr ⟨_, he, rfl⟩

theorem initPopup_sentMethods (gm : String → String) (badge : String)
    (detectedResp : Option (List PageEvent)) (feedResp : List FeedEvent)
    (st : PopupState) :
    sentMethods (initPopup gm badge detectedResp feedResp st).2 ⊆
      popupMethods := by
  intro mth hmem
  by_cases hq : badge = "?" <;>
    simp [initPopup, badgeTextCallback, sentMethods, hq] at hmem <;>
    rcases hmem with rfl | rfl | rfl <;> decide

/-- C8: every data acquisition the popup performs is a
`chrome.extension.sendMessage` call whose method is one of
`events.feed.get`, `events.feed.fetch`, `events.detected.get` — over a
whole initialization run, over a `#sync_now` click, over the badge-text
callback — and clicking an event div only creates a tab, fetching no
data. -/
theorem C8_messages_only (gm : String → String) (badge : String)
    (detectedResp : Option (List PageEvent)) (feedResp : List FeedEvent)
    (st : PopupState) (text : String) (st2 : PopupState)
    (d : EventDivModel) :
    (∀ e ∈ (initPopup gm badge detectedResp feedResp st).2,
      effectFetchesOnlyVia e) ∧
    (∀ e ∈ syncNowClickEffects, effectFetchesOnlyVia e) ∧
    (∀ e ∈ (badgeTextCallback text st2).2, effectFetchesOnlyVia e) ∧
    effectFetchesOnlyVia (eventDivClick d) := by
  refine ⟨?_, ?_, ?_, ?_⟩
  · intro e he mth heq
    exact initPopup_sentMethods gm badge detectedResp feedResp st
      (mem_sentMethods _ e mth he heq)
  · intro e he mth heq
    have h1 := mem_sentMethods _ e mth he heq
    have h2 : mth = "events.feed.fetch" := by
      simpa [sentMethods, syncNowClickEffects] using h1
    subst h2; decide
  · intro e he mth heq
    have h1 := mem_sentMethods _ e mth he heq
    by_cases hq : text = "?"
    · have h2 : mth = "events.feed.fetch" := by
        simpa [badgeTextCallback, sentMethods, hq] using h1
      subst h2; decide
    · simp [badgeTextCallback, sentMethods, hq] at h1
  · intro mth heq
    simp [eventDivClick] at heq

theorem C8_messages_only_witness :
    "events.feed.fetch" ∈ popupMethods :=
  (C8_messages_only demoGetMessage "?" none [] emptyState "?" emptyState
      demoDiv3).2.1
    (Effect.sendMessage "events.feed.fetch") (by decide)
    "events.feed.fetch" rfl

end browseraction

namespace browseraction

theorem eventDivOf_times_none (ev : FeedEvent) (start : Moment)
    (endM : Option Moment) :
    (eventDivOf ev start endM).startEndTimes = none ↔
      endM = none ∨
      ∃ e, endM = some e ∧ start.hours = 0 ∧ start.minutes = 0 ∧
        e.hours = 0 ∧ e.minutes = 0 := by
  cases endM with
  | none => simp [eventDivOf, eventAllDay]
  | some e =>
    constructor
    · intro hnone
      by_cases hb : (start.hours == 0 && start.minutes == 0 &&
          e.hours == 0 && e.minutes == 0) = true
      · have hz : ((start.hours = 0 ∧ start.minutes = 0) ∧ e.hours = 0) ∧
            e.minutes = 0 := by simpa using hb
        exact Or.inr ⟨e, rfl, hz.1.1.1, hz.1.1.2, hz.1.2, hz.2⟩
      · exfalso
        simp [eventDivOf, eventAllDay, hb] at hnone
    · rintro (h | ⟨e2, he2, h1, h2, h3, h4⟩)
      · cases h
      · obtain rfl : e2 = e := (Option.some.inj he2).symm
        simp [eventDivOf, eventAllDay, h1, h2, h3, h4]

/-- C9: a rendered event div omits the `start-and-end-times` block exactly
when the event is classified all-day: its end is missing or unparseable,
or both the parsed start and end have hours 0 and minutes 0. -/
theorem C9_allday_iff (ev : FeedEvent) (ldh : Option Moment)
    (items : List AgendaItem) (m : Moment) (start : Moment)
    (hstart : utils.fromIso8601 ev.start = some start)
    (hstep : renderEventStep ev ldh = some (items, m)) :
    ∀ d ∈ eventDivs items,
      (d.startEndTimes = none ↔
        utils.fromIso8601 ev.«end» = none ∨
        ∃ e, utils.fromIso8601 ev.«end» = some e ∧
          start.hours = 0 ∧ start.minutes = 0 ∧
          e.hours = 0 ∧ e.minutes = 0) := by
  obtain ⟨start2, hs2, hitems, hm⟩ := renderEventStep_some ev ldh items m hstep
  rw [hstart] at hs2
  obtain rfl : start = start2 := Option.some.inj hs2
  subst hitems
  intro d hd
  cases hif : (headerUpdate start.zeroClock ldh).1 <;>
    simp [eventDivs, hif] at hd <;> subst hd <;>
    exact eventDivOf_times_none ev start _

theorem C9_allday_iff_witness : demoDiv3.startEndTimes = none :=
  (C9_allday_iff demoEvent3 none demoItems3 demoStart3 demoStart3
      (by decide) (by decide) demoDiv3 (by decide)).mpr
    (Or.inl (by decide))

/-- C10: a missing or empty detected-events response leaves the popup
state entirely unchanged; a non-empty response appends exactly one
events-list container with one add-to-calendar anchor per event — each
linked to that event's gcal_url and labelled with the event's title,
since the default-anchor-text flag is passed as false — and switches to
the detected-events tab. -/
theorem C10_detected_events (gm : String → String) (st : PopupState)
    (evs : List PageEvent) :
    showDetectedEventsCallback gm none st = st ∧
    showDetectedEventsCallback gm (some []) st = st ∧
    (evs ≠ [] →
      showDetectedEventsCallback gm (some evs) st =
        addEventsClick { st with eventsListContainers :=
          st.eventsListContainers ++
            [evs.map fun event => createEventButton_ gm event false] } ∧
      (showDetectedEventsCallback gm (some evs) st).addEventsSelected
        = true ∧
      ∀ event ∈ evs,
        (createEventButton_ gm event false).href = event.gcal_url ∧
        (createEventButton_ gm event false).htmlContent = event.title) := by
  refine ⟨rfl, rfl, fun hne => ⟨?_, ?_, ?_⟩⟩
  · have hlen : evs.length > 0 := List.length_pos.mpr hne
    simp [showDetectedEventsCallback, hlen]
  · have hlen : evs.length > 0 := List.length_pos.mpr hne
    simp [showDetectedEventsCallback, hlen, addEventsClick]
  · intro event hmem
    exact ⟨rfl, rfl⟩

theorem C10_detected_events_witness :
    (showDetectedEventsCallback demoGetMessage (some [demoPageEvent])
      emptyState).addEventsSelected = true :=
  ((C10_detected_events demoGetMessage emptyState [demoPageEvent]).2.2
    (by decide)).2.1

end browseraction
